import Mathlib

/-!
Shallow embedding of the HealthCare-SMC analytics core
(`src/backend`): indicator normalization, spike/outbreak detection,
maternal risk scoring, capacity prediction and ward composite risk.
Numbers are modelled with `ℚ` (Python floats treated as exact
rationals), strings with Lean `String` over explicit character lists.
-/

namespace HealthSMC

/-! ## String helpers (models of Python `str` operations) -/

/-- Python whitespace characters (` \t\n\r\x0b\x0c`), used by `str.strip`
and the regex class `\s`. -/
def isPySpace (c : Char) : Bool :=
  c = ' ' || c = '\t' || c = '\n' || c = '\r' || c = Char.ofNat 11 || c = Char.ofNat 12

/-- `str.lower()` (ASCII). -/
def strLower (s : String) : String := String.mk (s.toList.map Char.toLower)

/-- `str.strip()` on a character list. -/
def stripList (l : List Char) : List Char :=
  ((l.dropWhile isPySpace).reverse.dropWhile isPySpace).reverse

/-- `str.strip()`. -/
def pyStrip (s : String) : String := String.mk (stripList s.toList)

/-- Replace each maximal run of characters satisfying `p` with a single
space; models `re.sub(r'[-_]+', ' ', s)` and `re.sub(r'\s+', ' ', s)`.
The `inRun` flag records whether the previous character was in a run. -/
def collapseRunsAux (p : Char → Bool) : Bool → List Char → List Char
  | _, [] => []
  | inRun, c :: rest =>
    if p c then
      if inRun then collapseRunsAux p true rest
      else ' ' :: collapseRunsAux p true rest
    else c :: collapseRunsAux p false rest

def collapseRuns (p : Char → Bool) (l : List Char) : List Char :=
  collapseRunsAux p false l

/-- Is `pre` a prefix of `l`? -/
def listIsPrefix : List Char → List Char → Bool
  | [], _ => true
  | _ :: _, [] => false
  | a :: as, b :: bs => a = b && listIsPrefix as bs

/-- Is `pat` a contiguous sublist of `hay`? Models Python `pat in hay`. -/
def listContains (pat : List Char) : List Char → Bool
  | [] => listIsPrefix pat []
  | c :: rest => listIsPrefix pat (c :: rest) || listContains pat rest

/-- Python `pat in hay` on strings. -/
def strContains (hay pat : String) : Bool := listContains pat.toList hay.toList

/-- One step of `str.replace`: fuel-indexed so recursion is structural;
the fuel is the length of the haystack, which bounds the number of
characters consumed. -/
def replaceAllAux (n0 : Char) (ntail repl : List Char) : Nat → List Char → List Char
  | 0, hay => hay
  | _ + 1, [] => []
  | fuel + 1, c :: rest =>
    if listIsPrefix (n0 :: ntail) (c :: rest) then
      repl ++ replaceAllAux n0 ntail repl fuel ((c :: rest).drop (ntail.length + 1))
    else c :: replaceAllAux n0 ntail repl fuel rest

/-- Python `hay.replace(needle, repl)` (replace all occurrences,
left to right, non-overlapping). -/
def pyReplace (hay needle repl : String) : String :=
  match needle.toList with
  | [] => hay
  | n0 :: ntail => String.mk (replaceAllAux n0 ntail repl.toList hay.toList.length hay.toList)

/-- Python `str.title()` for ASCII: upper-case an alphabetic character
that follows a non-alphabetic one, lower-case the other alphabetic
characters. -/
def pyTitleAux : Bool → List Char → List Char
  | _, [] => []
  | prevAlpha, c :: rest =>
    let c' := if c.isAlpha then (if prevAlpha then c.toLower else c.toUpper) else c
    c' :: pyTitleAux c.isAlpha rest

def pyTitle (s : String) : String := String.mk (pyTitleAux false s.toList)

/-! ## Indicator normalizer (`backend/utils/indicator_normalizer.py`) -/

/-- `INDICATOR_MAPPING`, in Python dict insertion order. -/
def INDICATOR_MAPPING : List (String × String) := [
  ("malaria", "New Malaria Cases"),
  ("new malaria", "New Malaria Cases"),
  ("malaria cases", "New Malaria Cases"),
  ("new malaria cases", "New Malaria Cases"),
  ("malaria identified", "New Malaria Cases"),
  ("new malaria cases identified", "New Malaria Cases"),
  ("dengue", "Dengue Cases"),
  ("dengue cases", "Dengue Cases"),
  ("dengue fever", "Dengue Cases"),
  ("new dengue", "Dengue Cases"),
  ("tb", "Tuberculosis Cases"),
  ("tuberculosis", "Tuberculosis Cases"),
  ("new tb", "Tuberculosis Cases"),
  ("tb cases", "Tuberculosis Cases"),
  ("tuberculosis cases", "Tuberculosis Cases"),
  ("diarrhea", "Diarrhea Cases"),
  ("diarrhoea", "Diarrhea Cases"),
  ("diarrheal", "Diarrhea Cases"),
  ("acute diarrhea", "Diarrhea Cases"),
  ("hiv", "HIV Cases"),
  ("hiv positive", "HIV Cases"),
  ("new hiv", "HIV Cases"),
  ("hepatitis", "Hepatitis Cases"),
  ("hepatitis a", "Hepatitis Cases"),
  ("hepatitis b", "Hepatitis Cases"),
  ("hepatitis c", "Hepatitis Cases"),
  ("measles", "Measles Cases"),
  ("measles cases", "Measles Cases"),
  ("new measles", "Measles Cases"),
  ("pneumonia", "Pneumonia Cases"),
  ("pneumonia cases", "Pneumonia Cases"),
  ("acute pneumonia", "Pneumonia Cases"),
  ("encephalitis", "Encephalitis Cases"),
  ("viral encephalitis", "Encephalitis Cases"),
  ("cholera", "Cholera Cases"),
  ("acute cholera", "Cholera Cases"),
  ("cholera cases", "Cholera Cases"),
  ("influenza", "Influenza Cases"),
  ("flu", "Influenza Cases"),
  ("seasonal flu", "Influenza Cases"),
  ("influenza like illness", "Influenza Cases"),
  ("maternal death", "Maternal Mortality"),
  ("maternal deaths", "Maternal Mortality"),
  ("neonatal death", "Neonatal Mortality"),
  ("neonatal deaths", "Neonatal Mortality"),
  ("death", "Deaths"),
  ("deaths", "Deaths"),
  ("low birth weight", "Low Birth Weight"),
  ("lbw", "Low Birth Weight"),
  ("hypertension", "Hypertension Cases"),
  ("high blood pressure", "Hypertension Cases")]

/-- Step 3 of `normalize_indicator_name`: first mapping entry whose key
equals or is contained in the normalized string. -/
def lookupMapping (normalized : String) : Option String :=
  INDICATOR_MAPPING.findSome? fun kv =>
    if normalized = kv.1 || strContains normalized kv.1 then some kv.2 else none

/-- The step-4 disease keyword list. -/
def fallbackDiseases : List String :=
  ["malaria", "dengue", "tuberculosis", "tb", "diarrhea", "hiv",
   "hepatitis", "measles", "pneumonia", "encephalitis", "cholera",
   "influenza", "flu", "death", "mortality"]

/-- `disease.replace('tb', 'TB').title().replace('hiv', 'HIV')`. -/
def diseaseTitle (disease : String) : String :=
  pyReplace (pyTitle (pyReplace disease "tb" "TB")) "hiv" "HIV"

/-- Step 4 of `normalize_indicator_name`: scan the fallback disease
keywords; on the first hit return `"Deaths"` when the string mentions
death/mortality, otherwise the title-cased disease plus `" Cases"`. -/
def fallbackLookup (normalized : String) : Option String :=
  fallbackDiseases.findSome? fun disease =>
    if strContains normalized disease then
      some (if strContains normalized "death" || strContains normalized "mortality"
            then "Deaths"
            else diseaseTitle disease ++ " Cases")
    else none

/-- `normalize_indicator_name` from
`backend/utils/indicator_normalizer.py`: lower-case and strip, replace
hyphen/underscore runs and whitespace runs by single spaces, look the
result up in `INDICATOR_MAPPING` (equality or substring), fall back to
the disease keyword scan, else return the stripped original.  An empty
input (falsy in Python) yields `"Unknown"`. -/
def normalize_indicator_name (indicator_name : String) : String :=
  if indicator_name = "" then "Unknown"
  else
    let normalized := pyStrip (strLower indicator_name)
    let normalized := String.mk (collapseRuns (fun c => c = '-' || c = '_') normalized.toList)
    let normalized := String.mk (collapseRuns isPySpace normalized.toList)
    match lookupMapping normalized with
    | some v => v
    | none =>
      match fallbackLookup normalized with
      | some v => v
      | none => pyStrip indicator_name

/-! ## Generic sorted-insertion helpers -/

/-- Code-point lexicographic order on character lists (Python string `<`). -/
def charListLt : List Char → List Char → Bool
  | [], [] => false
  | [], _ :: _ => true
  | _ :: _, [] => false
  | a :: as, b :: bs =>
    if a.val < b.val then true
    else if b.val < a.val then false
    else charListLt as bs

def strLt (a b : String) : Bool := charListLt a.toList b.toList

/-- Insert `x` into a descending-by-`f` list, after every element with an
equal or larger key; folding this over a list from the left is a stable
descending sort (the model of Python `list.sort(key=f, reverse=True)`
and of `pandas.sort_values(ascending=False)` up to tie order). -/
def insertDescBy (f : α → ℚ) (x : α) : List α → List α
  | [] => [x]
  | y :: ys => if f y < f x then x :: y :: ys else y :: insertDescBy f x ys

def sortDescBy (f : α → ℚ) (l : List α) : List α :=
  l.foldl (fun acc x => insertDescBy f x acc) []

/-- The descending-sortedness checker for a list of keys. -/
def isSortedDesc : List ℚ → Bool
  | [] => true
  | [_] => true
  | a :: b :: rest => decide (b ≤ a) && isSortedDesc (b :: rest)

namespace SpikeEngine

/-! ## Batch spike detector (`backend/engines/spike_engine.py`) -/

def MIN_CASE_THRESHOLD : ℚ := 75
def SPIKE_MULTIPLIER : ℚ := 7 / 4
def ROLLING_WINDOW : Nat := 3

def DISEASE_KEYWORDS : List String :=
  ["malaria", "dengue", "tuberculosis", "tb ", "hiv", "sti", "rti",
   "hepatitis", "encephalitis", "diarrhea", "cholera", "influenza",
   "pneumonia", "measles", "maternal death", "neonatal death", "death",
   "low birth weight", "hb level<7", "hypertension"]

/-- One row of the monthly aggregated health data
(`load_monthly_health_data` output). -/
structure MRow where
  district : String
  indicatorname : String
  month_num : Nat
  total_cases : ℚ
deriving DecidableEq, Repr

/-- `df["indicatorname"].str.lower().str.contains("|".join(DISEASE_KEYWORDS))`:
the pattern is an alternation of literal substrings. -/
def matchesDisease (ind : String) : Bool :=
  DISEASE_KEYWORDS.any fun k => strContains (strLower ind) k

/-- Insert a `(district, indicator)` key into an ascending duplicate-free
key list. -/
def insertKey (k : String × String) : List (String × String) → List (String × String)
  | [] => [k]
  | k' :: rest =>
    if strLt k.1 k'.1 || (k.1 = k'.1 && strLt k.2 k'.2) then k :: k' :: rest
    else if k = k' then k' :: rest
    else k' :: insertKey k rest

/-- The distinct `(district, indicatorname)` group keys, ascending —
the grouping produced by `groupby(["district","indicatorname"])` after
`sort_values(["district","indicatorname","month_num"])`. -/
def sortedKeys (rows : List MRow) : List (String × String) :=
  rows.foldl (fun acc r => insertKey (r.district, r.indicatorname) acc) []

def insertNat (m : Nat) : List Nat → List Nat
  | [] => [m]
  | m' :: rest =>
    if m < m' then m :: m' :: rest
    else if m = m' then m' :: rest
    else m' :: insertNat m rest

/-- The distinct months present for a `(district, indicator)` group,
ascending. -/
def monthsFor (rows : List MRow) (d i : String) : List Nat :=
  (rows.filter fun r => r.district = d && r.indicatorname = i).foldl
    (fun acc r => insertNat r.month_num acc) []

/-- Sum of `total_cases` over the `(district, indicator, month)` group. -/
def totalFor (rows : List MRow) (d i : String) (m : Nat) : ℚ :=
  ((rows.filter fun r => r.district = d && r.indicatorname = i && r.month_num = m).map
    (·.total_cases)).sum

/-- Per-group month series after aggregation and the
`total_cases >= MIN_CASE_THRESHOLD` noise filter, month-ascending. -/
def seriesFor (rows : List MRow) (d i : String) : List (Nat × ℚ) :=
  ((monthsFor rows d i).map fun m => (m, totalFor rows d i m)).filter
    fun p => MIN_CASE_THRESHOLD ≤ p.2

/-- Mean of the trailing window of width up to `ROLLING_WINDOW` ending at
index `i` (inclusive of index `i`), as computed by
`rolling(ROLLING_WINDOW, min_periods=2).mean()` on a defined row. -/
def windowMean (series : List (Nat × ℚ)) (i : Nat) : ℚ :=
  let w := ((series.take (i + 1)).reverse.take ROLLING_WINDOW).map (·.2)
  w.sum / w.length

/-- Walk the series attaching to the row at index `i` its rolling
baseline. -/
def withBaselineAux (series : List (Nat × ℚ)) : Nat → List (Nat × ℚ) → List (Nat × ℚ × Option ℚ)
  | _, [] => []
  | i, p :: rest =>
    (p.1, p.2, if 1 ≤ i then some (windowMean series i) else none) ::
      withBaselineAux series (i + 1) rest

/-- Attach the rolling baseline to each row of a group series: defined
from the second row of the group onwards (`min_periods=2`), `none`
(pandas `NaN`) before that. -/
def withBaseline (series : List (Nat × ℚ)) : List (Nat × ℚ × Option ℚ) :=
  withBaselineAux series 0 series

def MONTH_REVERSE : List (Nat × String) :=
  [(1, "Jan"), (2, "Feb"), (3, "Mar"), (4, "Apr"), (5, "May"), (6, "Jun"),
   (7, "Jul"), (8, "Aug"), (9, "Sep"), (10, "Oct"), (11, "Nov"), (12, "Dec")]

def monthName (m : Nat) : Option String :=
  (MONTH_REVERSE.find? fun p => p.1 = m).map (·.2)

/-- One output row of `detect_outbreaks`. -/
structure SpikeRow where
  district : String
  indicatorname : String
  month : Option String
  total_cases : ℚ
  baseline : ℚ
  surge_percent : ℚ
deriving DecidableEq, Repr

/-- Select the flagged rows from a baseline-annotated group series: keep
rows with a defined baseline `> 0` whose total exceeds
`baseline × multiplier`, and attach `surge_percent`. -/
def spikeRowsOf (d i : String) : List (Nat × ℚ × Option ℚ) → List SpikeRow
  | [] => []
  | (_, _, none) :: rest => spikeRowsOf d i rest
  | (m, t, some b) :: rest =>
    if 0 < b ∧ b * SPIKE_MULTIPLIER < t then
      ⟨d, i, monthName m, t, b, (t - b) / b * 100⟩ :: spikeRowsOf d i rest
    else spikeRowsOf d i rest

/-- The flagged rows of one `(district, indicator)` group. -/
def groupRows (rows : List MRow) (d i : String) : List SpikeRow :=
  spikeRowsOf d i (withBaseline (seriesFor rows d i))

/-- `detect_outbreaks` from `backend/engines/spike_engine.py`: filter to
indicators matching the disease keyword alternation, aggregate by
(district, indicator, month), drop totals below the floor, compute the
rolling baseline per group, flag spikes, and sort by `surge_percent`
descending. -/
def detect_outbreaks (rows : List MRow) : List SpikeRow :=
  let filtered := rows.filter fun r => matchesDisease r.indicatorname
  let keys := sortedKeys filtered
  sortDescBy (·.surge_percent) ((keys.map fun k => groupRows filtered k.1 k.2).flatten)

/-- The `activity_words` list of `classify_signal`. -/
def activity_words : List String :=
  ["immunisation", "vaccination", "sterilization", "tested", "screened"]

def disease_words : List String :=
  ["malaria", "dengue", "sti", "rti", "tuberculosis", "death",
   "pneumonia", "syphilis", "diarrhea"]

/-- `classify_signal` from `backend/engines/spike_engine.py`. -/
def classify_signal (indicator : String) : String :=
  let ind := strLower indicator
  if disease_words.any (fun w => strContains ind w) then "🔴 Disease Signal"
  else if activity_words.any (fun w => strContains ind w) then "🟢 Healthcare Activity"
  else "🟠 Operational / Other"

/-- Does the indicator match the activity/operational word list? -/
def matchesActivity (ind : String) : Bool :=
  activity_words.any fun w => strContains (strLower ind) w

end SpikeEngine

namespace OutbreakEngine

/-! ## Single-record outbreak check (`backend/engines/outbreak_engine.py`) -/

/-- The fields of a streamed record the check reads. -/
structure Rec2 where
  indicatorname : String
  total_cases : ℤ
deriving DecidableEq, Repr

def insertAscZ (x : ℤ) : List ℤ → List ℤ
  | [] => [x]
  | y :: ys => if x ≤ y then x :: y :: ys else y :: insertAscZ x ys

def sortAscZ (l : List ℤ) : List ℤ :=
  l.foldl (fun acc x => insertAscZ x acc) []

/-- `statistics.median`: sort, middle element for odd length, mean of
the two middle elements for even length (0 on an empty list, which the
caller never passes). -/
def median (l : List ℤ) : ℚ :=
  let s := sortAscZ l
  let n := s.length
  if n % 2 = 1 then ((s.getD (n / 2) 0 : ℤ) : ℚ)
  else (((s.getD (n / 2 - 1) 0 : ℤ) : ℚ) + ((s.getD (n / 2) 0 : ℤ) : ℚ)) / 2

/-- `detect_outbreaks` from `backend/engines/outbreak_engine.py` (the
single-record mode, `detect_one` in the spec).  `history` models
`storage.read_last(50)`'s source, newest first; the function takes the
last 50 records, filters them to the record's indicator and compares the
new count with their median. -/
def detect_one (history : List Rec2) (record : Rec2) : Bool :=
  let tc := record.total_cases
  if 200 ≤ tc then true
  else
    let recent := history.take 50
    let same := (recent.filter fun r => r.indicatorname = record.indicatorname).map
      (·.total_cases)
    if same.isEmpty then false
    else
      let med := median same
      if med = 0 then decide (0 < tc)
      else decide (3 ≤ (tc : ℚ) / med)

end OutbreakEngine

/-! ## Python rounding (`round(x, ndigits)`) -/

/-- Round-half-to-even on rationals, the rounding of Python's `round`. -/
def roundHalfEven (q : ℚ) : ℤ :=
  if q - ⌊q⌋ < 1 / 2 then ⌊q⌋
  else if 1 / 2 < q - ⌊q⌋ then ⌊q⌋ + 1
  else if ⌊q⌋ % 2 = 0 then ⌊q⌋ else ⌊q⌋ + 1

/-- Python `round(q, nd)` with the float value read as an exact rational. -/
def pyRound (nd : Nat) (q : ℚ) : ℚ :=
  (roundHalfEven (q * 10 ^ nd) : ℚ) / 10 ^ nd

namespace PredictionService

/-! ## Capacity prediction (`backend/services/prediction_service.py`) -/

/-- Value of the `*_remaining_hours` field of a prediction: Python
`None`, `float("inf")`, or a finite float. -/
inductive HourVal where
  | noneH : HourVal
  | infH : HourVal
  | finH : ℚ → HourVal
deriving DecidableEq, Repr

/-- Is the field free of non-finite floats?  (`None` is the sentinel,
not a float.) -/
def hourValFinite : HourVal → Bool
  | .infH => false
  | _ => true

/-- A facility status snapshot (counts are non-negative per the data
model). -/
structure FacilityStatusS where
  beds_available : Nat
  icu_available : Nat
deriving DecidableEq, Repr

/-- The returned prediction record. -/
structure Prediction where
  avg_admission_rate : ℚ
  projected_24h_admissions : ℤ
  remaining_hours : HourVal
  crisis_likely : Bool
deriving DecidableEq, Repr

/-- Python `int(x)`: truncation toward zero. -/
def pyInt (q : ℚ) : ℤ := if q < 0 then -⌊-q⌋ else ⌊q⌋

/-- `predict_bed_demand`: `records` are the `total_cases` of the
facility's health records from the last 6 hours, `status` its latest
status snapshot (if any). -/
def predict_bed_demand (records : List ℤ) (status : Option FacilityStatusS) :
    Prediction :=
  match records with
  | [] => ⟨0, 0, .noneH, false⟩
  | _ :: _ =>
    let rate : ℚ := ((records.map fun z => (z : ℚ)).sum) / 6
    let proj := pyInt (rate * 24)
    match status with
    | none => ⟨rate, proj, .infH, false⟩
    | some st =>
      if rate ≤ 0 then ⟨pyRound 2 rate, proj, .noneH, false⟩
      else
        let h := (st.beds_available : ℚ) / (rate * (6 / 5))
        ⟨pyRound 2 rate, proj, .finH (pyRound 1 h), decide (h < 24)⟩

/-- `predict_icu_demand`: same shape with ICU availability, safety
margin 1.5 and crisis horizon 12 hours. -/
def predict_icu_demand (records : List ℤ) (status : Option FacilityStatusS) :
    Prediction :=
  match records with
  | [] => ⟨0, 0, .noneH, false⟩
  | _ :: _ =>
    let rate : ℚ := ((records.map fun z => (z : ℚ)).sum) / 6
    let proj := pyInt (rate * 24)
    match status with
    | none => ⟨rate, proj, .infH, false⟩
    | some st =>
      if rate ≤ 0 then ⟨pyRound 2 rate, proj, .noneH, false⟩
      else
        let h := (st.icu_available : ℚ) / (rate * (3 / 2))
        ⟨pyRound 2 rate, proj, .finH (pyRound 1 h), decide (h < 12)⟩

end PredictionService

namespace RiskEngine

/-! ## Maternal risk scorer (`backend/models/risk_engine.py`) -/

def MATERNAL_SECTIONS : List String := ["M1", "M2", "M3", "M4"]

/-- One row of the health data (`load_health_data` output). -/
structure HRow where
  district : String
  codesection : String
  indicatorname : String
  total_cases : ℚ
deriving DecidableEq, Repr

def strIsPrefix (p s : String) : Bool := listIsPrefix p.toList s.toList

/-- `codesection.str.startswith(tuple(MATERNAL_SECTIONS))`. -/
def isMaternal (r : HRow) : Bool :=
  MATERNAL_SECTIONS.any fun p => strIsPrefix p r.codesection

def isAnemia (r : HRow) : Bool :=
  strContains (strLower r.indicatorname) "hb level<7"

def isHypertension (r : HRow) : Bool :=
  strContains (strLower r.indicatorname) "hypertension"

/-- Case-insensitive match of the alternation `weight less than|low birth`. -/
def isLowWeight (r : HRow) : Bool :=
  strContains (strLower r.indicatorname) "weight less than" ||
    strContains (strLower r.indicatorname) "low birth"

def isPregReg (r : HRow) : Bool :=
  strContains (strLower r.indicatorname) "pregnant women registered"

/-- `total_cases` summed over rows of district `d` matching `p`. -/
def sumWhere (rows : List HRow) (p : HRow → Bool) (d : String) : ℚ :=
  ((rows.filter fun r => p r && r.district = d).map (·.total_cases)).sum

def insertStr (s : String) : List String → List String
  | [] => [s]
  | s' :: rest =>
    if strLt s s' then s :: s' :: rest
    else if s = s' then s' :: rest
    else s' :: insertStr s rest

/-- The union of districts appearing in the anemia, hypertension or
low-birth-weight selections (the index of the `concat` of the three
grouped series), ascending. -/
def riskDistricts (maternal : List HRow) : List String :=
  maternal.foldl
    (fun acc r =>
      if isAnemia r || isHypertension r || isLowWeight r then insertStr r.district acc
      else acc) []

/-- One row of the ranked output. -/
structure RiskEntry where
  district : String
  risk_events : ℚ
  pregnancies : ℚ
  risk_score : ℚ
  risk_per_1000 : ℚ
deriving DecidableEq, Repr

/-- `compute_risk` from `backend/models/risk_engine.py`: restrict to
maternal code sections, sum the three high-risk indicators per district
(absent series count as 0 via `fillna(0)`), take their maximum as
`risk_events`, join the registered-pregnancy denominator, drop
districts whose denominator is missing (`dropna`) or `≤ 0`, compute the
two ratios and sort by `risk_score` descending. -/
def riskEntriesOf (maternal : List HRow) : List String → List RiskEntry
  | [] => []
  | d :: rest =>
    if (maternal.any fun r => isPregReg r && r.district = d) ∧
        0 < sumWhere maternal isPregReg d then
      ⟨d,
        max (max (sumWhere maternal isAnemia d) (sumWhere maternal isHypertension d))
          (sumWhere maternal isLowWeight d),
        sumWhere maternal isPregReg d,
        max (max (sumWhere maternal isAnemia d) (sumWhere maternal isHypertension d))
            (sumWhere maternal isLowWeight d) / sumWhere maternal isPregReg d * 100,
        max (max (sumWhere maternal isAnemia d) (sumWhere maternal isHypertension d))
            (sumWhere maternal isLowWeight d) / sumWhere maternal isPregReg d * 1000⟩ ::
        riskEntriesOf maternal rest
    else riskEntriesOf maternal rest

def compute_risk (rows : List HRow) : List RiskEntry :=
  sortDescBy (·.risk_score)
    (riskEntriesOf (rows.filter isMaternal) (riskDistricts (rows.filter isMaternal)))

end RiskEngine

namespace WardRisk

/-! ## Ward composite risk (`backend/services/ward_risk_service.py`) -/

/-- A ward's inputs: case totals over the last 24 and 6 hours, and for
each of its facilities the latest status snapshot's `icu_available`
(`none` when the facility has no snapshot). -/
structure Ward where
  cases24 : Nat
  cases6 : Nat
  facilities : List (Option Nat)
deriving DecidableEq, Repr

/-- `get_ward_icu_pressure`: each facility with a snapshot contributes an
assumed capacity of 20 ICU beds and its available count; the pressure is
`(capacity − available) / capacity` clamped to `[0, 1]`, and `0.0` when
the ward has no facilities or no facility has a snapshot. -/
def get_ward_icu_pressure (facilities : List (Option Nat)) : ℚ :=
  if facilities = [] then 0
  else
    let acc := facilities.foldl
      (fun (a : Nat × Nat) f? =>
        match f? with
        | some icu => (a.1 + 20, a.2 + icu)
        | none => a) (0, 0)
    if acc.1 = 0 then 0
    else max 0 (min 1 (((acc.1 : ℚ) - (acc.2 : ℚ)) / (acc.1 : ℚ)))

/-- `min(100.0, (cases_24h / 500.0) * 100.0)`. -/
def casesNormalized (c24 : Nat) : ℚ := min 100 ((c24 : ℚ) / 500 * 100)

/-- `cases_6h / (cases_24h / 4.0)` when `cases_24h > 0`, else `0`. -/
def growthRate (c24 c6 : Nat) : ℚ :=
  if c24 = 0 then 0 else (c6 : ℚ) / ((c24 : ℚ) / 4)

/-- `min(100.0, (growth_rate / 1.5) * 100.0)` when `cases_24h > 0`, else `0`. -/
def growthNormalized (c24 c6 : Nat) : ℚ :=
  if c24 = 0 then 0 else min 100 (growthRate c24 c6 / (3 / 2) * 100)

/-- The weighted risk score before rounding. -/
def rawScore (w : Ward) : ℚ :=
  casesNormalized w.cases24 * (1 / 2) + growthNormalized w.cases24 w.cases6 * (3 / 10) +
    get_ward_icu_pressure w.facilities * 100 * (1 / 5)

/-- The threshold classification of `compute_ward_risk`. -/
def riskLevel (s : ℚ) : String :=
  if 75 ≤ s then "CRITICAL"
  else if 50 ≤ s then "HIGH"
  else if 25 ≤ s then "MEDIUM"
  else "LOW"

/-- The returned ward risk record. -/
structure WardRiskOut where
  ward : String
  risk_score : ℚ
  risk_level : String
  recent_cases : Nat
  icu_pressure : ℚ
  growth_rate : ℚ
deriving DecidableEq, Repr

/-- `compute_ward_risk` from `backend/services/ward_risk_service.py`
(the ward name is passed alongside its data). -/
def compute_ward_risk (ward : String) (w : Ward) : WardRiskOut :=
  ⟨ward, pyRound 1 (rawScore w), riskLevel (rawScore w), w.cases24,
    pyRound 3 (get_ward_icu_pressure w.facilities),
    pyRound 2 (growthRate w.cases24 w.cases6)⟩

/-- The `wards` list of `get_all_wards_risk`: skip falsy (empty) ward
names, compute each ward's risk, and sort by `risk_score` descending
with Python's stable `list.sort`. -/
def get_all_wards_risk (wards : List (String × Ward)) : List WardRiskOut :=
  sortDescBy (·.risk_score)
    ((wards.filter fun p => p.1 != "").map fun p => compute_ward_risk p.1 p.2)

end WardRisk

/-! ## Spec-side definitions and concrete example inputs -/

namespace OutbreakEngine

/-- The single-record outbreak contract, written from the spec's words
with the threshold comparison as the code implements it (`≥ 3`): fires
when the count reaches the absolute threshold, or — when same-indicator
records exist among the last 50 — when their median is 0 and the count
is positive, or the count-to-median ratio is at least 3. -/
def detect_one_spec (history : List Rec2) (record : Rec2) : Prop :=
  200 ≤ record.total_cases ∨
    (let same := ((history.take 50).filter fun r =>
        r.indicatorname = record.indicatorname).map (·.total_cases)
     same ≠ [] ∧
       ((median same = 0 ∧ 0 < record.total_cases) ∨
         (median same ≠ 0 ∧ 3 ≤ (record.total_cases : ℚ) / median same)))

end OutbreakEngine

namespace WardRisk

/-- Number of the ward's facilities that have a status snapshot. -/
def countSnapshots (facs : List (Option Nat)) : Nat :=
  (facs.filter Option.isSome).length

/-- Total `icu_available` over the facilities that have a snapshot. -/
def totalIcuAvailable (facs : List (Option Nat)) : Nat :=
  (facs.filterMap id).sum

/-- The closed form of the ward ICU pressure stated by the claim: a
fixed 20-bed capacity per facility with a snapshot, pressure
`(20·n − available) / (20·n)` clamped to `[0, 1]`, and `0` when there is
no facility or no snapshot. -/
def icuPressureSpec (facs : List (Option Nat)) : ℚ :=
  if facs = [] ∨ countSnapshots facs = 0 then 0
  else
    max 0 (min 1 ((20 * (countSnapshots facs : ℚ) - (totalIcuAvailable facs : ℚ)) /
      (20 * (countSnapshots facs : ℚ))))

/-- Ward data shared by the C7/C9 examples: 100 cases in 24h, 40 in 6h,
one facility whose latest snapshot has 10 ICU beds available. -/
def exampleWard : Ward := ⟨100, 40, [some 10]⟩

end WardRisk

/-- Canonical indicator forms produced by the mapping table, without the
two mortality forms. -/
def canonicalDiseaseForms : List String :=
  ["New Malaria Cases", "Dengue Cases", "Tuberculosis Cases", "Diarrhea Cases",
   "HIV Cases", "Hepatitis Cases", "Measles Cases", "Pneumonia Cases",
   "Encephalitis Cases", "Cholera Cases", "Influenza Cases", "Deaths",
   "Low Birth Weight", "Hypertension Cases"]

/-- The C1 example: district "D", indicator "Dengue Cases", period case
totals 80, 90, 300 in months 1, 2, 3. -/
def exampleC1 : List SpikeEngine.MRow :=
  [⟨"D", "Dengue Cases", 1, 80⟩, ⟨"D", "Dengue Cases", 2, 90⟩,
   ⟨"D", "Dengue Cases", 3, 300⟩]

/-- The C5 example: an activity indicator ("Measles Vaccination", which
matches both the disease keyword "measles" and the activity word
"vaccination") spiking in month 3. -/
def exampleC5 : List SpikeEngine.MRow :=
  [⟨"D", "Measles Vaccination", 1, 80⟩, ⟨"D", "Measles Vaccination", 2, 80⟩,
   ⟨"D", "Measles Vaccination", 3, 300⟩]

/-- The C6 example: anemia 10, hypertension 25, low birth weight 5 and
200 registered pregnancies for district "D", all in maternal sections. -/
def exampleC6 : List RiskEngine.HRow :=
  [⟨"D", "M1", "Hb level<7", 10⟩, ⟨"D", "M2", "Hypertension", 25⟩,
   ⟨"D", "M3", "Low Birth Weight", 5⟩, ⟨"D", "M1", "Pregnant Women Registered", 200⟩]

/-! ## Helper lemmas on the sorting and rounding primitives -/

theorem mem_insertDescBy {f : α → ℚ} {x a : α} :
    ∀ {l : List α}, a ∈ insertDescBy f x l → a = x ∨ a ∈ l := by
  intro l
  induction l with
  | nil => intro h; simpa [insertDescBy] using h
  | cons y ys ih =>
    intro h
    by_cases hc : f y < f x
    · simp only [insertDescBy, if_pos hc, List.mem_cons] at h
      rcases h with h | h | h
      · exact Or.inl h
      · exact Or.inr (by simp [h])
      · exact Or.inr (List.mem_cons_of_mem _ h)
    · simp only [insertDescBy, if_neg hc, List.mem_cons] at h
      rcases h with h | h
      · exact Or.inr (by simp [h])
      · rcases ih h with h | h
        · exact Or.inl h
        · exact Or.inr (List.mem_cons_of_mem _ h)

theorem mem_sortDescBy_aux {f : α → ℚ} {a : α} :
    ∀ (l acc : List α),
      a ∈ l.foldl (fun acc x => insertDescBy f x acc) acc → a ∈ acc ∨ a ∈ l := by
  intro l
  induction l with
  | nil => intro acc h; exact Or.inl h
  | cons x xs ih =>
    intro acc h
    rcases ih (insertDescBy f x acc) h with h | h
    · rcases mem_insertDescBy h with h | h
      · exact Or.inr (by simp [h])
      · exact Or.inl h
    · exact Or.inr (List.mem_cons_of_mem _ h)

theorem mem_sortDescBy {f : α → ℚ} {a : α} {l : List α} :
    a ∈ sortDescBy f l → a ∈ l := by
  intro h
  rcases mem_sortDescBy_aux l [] h with h | h
  · simp at h
  · exact h

theorem perm_insertDescBy (f : α → ℚ) (x : α) :
    ∀ (l : List α), List.Perm (insertDescBy f x l) (x :: l) := by
  intro l
  induction l with
  | nil => simp [insertDescBy]
  | cons y ys ih =>
    by_cases hc : f y < f x
    · simp [insertDescBy, if_pos hc]
    · simp only [insertDescBy, if_neg hc]
      exact (List.Perm.cons y ih).trans (List.Perm.swap x y ys)

theorem perm_sortDescBy_aux (f : α → ℚ) :
    ∀ (l acc : List α),
      List.Perm (l.foldl (fun acc x => insertDescBy f x acc) acc) (acc ++ l) := by
  intro l
  induction l with
  | nil => intro acc; simp
  | cons x xs ih =>
    intro acc
    have h1 := ih (insertDescBy f x acc)
    have h2 : List.Perm (insertDescBy f x acc ++ xs) ((x :: acc) ++ xs) :=
      (perm_insertDescBy f x acc).append_right xs
    have h3 : List.Perm ((x :: acc) ++ xs) (acc ++ x :: xs) := by
      rw [List.cons_append]
      exact List.perm_middle.symm
    exact (h1.trans h2).trans h3

theorem perm_sortDescBy (f : α → ℚ) (l : List α) :
    List.Perm (sortDescBy f l) l := by
  simpa using perm_sortDescBy_aux f l []

theorem insertDescBy_cons (f : α → ℚ) (x y : α) (ys : List α) :
    insertDescBy f x (y :: ys) =
      if f y < f x then x :: y :: ys else y :: insertDescBy f x ys := rfl

theorem isSortedDesc_cons₂ (a b : ℚ) (l : List ℚ) :
    isSortedDesc (a :: b :: l) = (decide (b ≤ a) && isSortedDesc (b :: l)) := rfl

theorem isSortedDesc_insertDescBy (f : α → ℚ) (x : α) :
    ∀ (l : List α), isSortedDesc (l.map f) = true →
      isSortedDesc ((insertDescBy f x l).map f) = true := by
  intro l
  induction l with
  | nil => intro _; simp [insertDescBy, isSortedDesc]
  | cons y ys ih =>
    intro hs
    rw [insertDescBy_cons]
    by_cases hc : f y < f x
    · rw [if_pos hc]
      simp only [List.map_cons] at hs ⊢
      rw [isSortedDesc_cons₂]
      simp [le_of_lt hc, hs]
    · rw [if_neg hc]
      push_neg at hc
      cases ys with
      | nil =>
        simp only [List.map_cons, List.map_nil, insertDescBy] at hs ⊢
        rw [isSortedDesc_cons₂]
        simp [hc, isSortedDesc]
      | cons z zs =>
        simp only [List.map_cons] at hs
        rw [isSortedDesc_cons₂] at hs
        have hzy : f z ≤ f y := of_decide_eq_true (Bool.and_eq_true .. ▸ hs).1
        have htail : isSortedDesc (f z :: zs.map f) = true := (Bool.and_eq_true .. ▸ hs).2
        have hins := ih (by simpa using htail)
        by_cases hzx : f z < f x
        · rw [insertDescBy_cons, if_pos hzx] at hins ⊢
          simp only [List.map_cons] at hins ⊢
          rw [isSortedDesc_cons₂]
          simp only [hins, Bool.and_true]
          simp [hc]
        · rw [insertDescBy_cons, if_neg hzx] at hins ⊢
          simp only [List.map_cons] at hins ⊢
          rw [isSortedDesc_cons₂]
          simp only [hins, Bool.and_true]
          simp [hzy]

theorem isSortedDesc_sortDescBy_aux (f : α → ℚ) :
    ∀ (l acc : List α), isSortedDesc (acc.map f) = true →
      isSortedDesc ((l.foldl (fun acc x => insertDescBy f x acc) acc).map f) = true := by
  intro l
  induction l with
  | nil => intro acc h; simpa using h
  | cons x xs ih =>
    intro acc h
    exact ih (insertDescBy f x acc) (isSortedDesc_insertDescBy f x acc h)

theorem isSortedDesc_sortDescBy (f : α → ℚ) (l : List α) :
    isSortedDesc ((sortDescBy f l).map f) = true :=
  isSortedDesc_sortDescBy_aux f l [] (by simp [isSortedDesc])

theorem roundHalfEven_nonneg {q : ℚ} (h : 0 ≤ q) : 0 ≤ roundHalfEven q := by
  have hf : (0 : ℤ) ≤ ⌊q⌋ := by
    have := Int.le_floor.mpr (by simpa using h)
    simpa using this
  unfold roundHalfEven
  split_ifs <;> omega

theorem roundHalfEven_le {q : ℚ} {M : ℤ} (h : q ≤ (M : ℚ)) : roundHalfEven q ≤ M := by
  have hf : ⌊q⌋ ≤ M := by
    calc ⌊q⌋ ≤ ⌊(M : ℚ)⌋ := Int.floor_le_floor h
    _ = M := Int.floor_intCast M
  have key : (1 : ℚ) / 2 ≤ q - ⌊q⌋ → ⌊q⌋ + 1 ≤ M := by
    intro hr
    by_contra hcon
    push_neg at hcon
    have hfM : ⌊q⌋ = M := by omega
    have : q - ⌊q⌋ ≤ 0 := by
      rw [hfM]
      linarith
    linarith
  unfold roundHalfEven
  split_ifs with h1 h2 h3
  · exact hf
  · exact key (le_of_lt h2)
  · exact hf
  · exact key (by linarith [not_lt.mp h1, not_lt.mp h2])

theorem pyRound_nonneg (nd : Nat) {q : ℚ} (h : 0 ≤ q) : 0 ≤ pyRound nd q := by
  unfold pyRound
  have h10 : (0 : ℚ) < 10 ^ nd := by positivity
  have := roundHalfEven_nonneg (q := q * 10 ^ nd) (by positivity)
  have : (0 : ℚ) ≤ (roundHalfEven (q * 10 ^ nd) : ℚ) := by exact_mod_cast this
  positivity

theorem pyRound1_le_100 {q : ℚ} (h : q ≤ 100) : pyRound 1 q ≤ 100 := by
  unfold pyRound
  have h1 : q * 10 ^ 1 ≤ ((1000 : ℤ) : ℚ) := by push_cast; nlinarith
  have h2 := roundHalfEven_le h1
  have h3 : ((roundHalfEven (q * 10 ^ 1) : ℤ) : ℚ) ≤ ((1000 : ℤ) : ℚ) := by
    exact_mod_cast h2
  have h10 : (0 : ℚ) < 10 ^ 1 := by norm_num
  rw [div_le_iff₀ h10]
  push_cast at h3 ⊢
  linarith

/-! ## Membership lemmas for the spike detector and risk scorer -/

theorem mem_insertKey {k k0 : String × String} :
    ∀ {l : List (String × String)}, k ∈ SpikeEngine.insertKey k0 l → k = k0 ∨ k ∈ l := by
  intro l
  induction l with
  | nil => intro h; simpa [SpikeEngine.insertKey] using h
  | cons k1 rest ih =>
    intro h
    by_cases hc : strLt k0.1 k1.1 || (k0.1 = k1.1 && strLt k0.2 k1.2)
    · simp only [SpikeEngine.insertKey, if_pos hc, List.mem_cons] at h
      rcases h with h | h | h
      · exact Or.inl h
      · exact Or.inr (by simp [h])
      · exact Or.inr (List.mem_cons_of_mem _ h)
    · simp only [SpikeEngine.insertKey, if_neg hc] at h
      by_cases he : k0 = k1
      · simp only [if_pos he, List.mem_cons] at h
        rcases h with h | h
        · exact Or.inr (by simp [h])
        · exact Or.inr (List.mem_cons_of_mem _ h)
      · simp only [if_neg he, List.mem_cons] at h
        rcases h with h | h
        · exact Or.inr (by simp [h])
        · rcases ih h with h | h
          · exact Or.inl h
          · exact Or.inr (List.mem_cons_of_mem _ h)

theorem mem_sortedKeys_aux {k : String × String} :
    ∀ (rows : List SpikeEngine.MRow) (acc : List (String × String)),
      k ∈ rows.foldl (fun a r => SpikeEngine.insertKey (r.district, r.indicatorname) a) acc →
        k ∈ acc ∨ ∃ r ∈ rows, k = (r.district, r.indicatorname) := by
  intro rows
  induction rows with
  | nil => intro acc h; exact Or.inl h
  | cons r rest ih =>
    intro acc h
    rcases ih _ h with h | h
    · rcases mem_insertKey h with h | h
      · exact Or.inr ⟨r, by simp, h⟩
      · exact Or.inl h
    · rcases h with ⟨r1, hr1, hk⟩
      exact Or.inr ⟨r1, List.mem_cons_of_mem _ hr1, hk⟩

theorem mem_sortedKeys {k : String × String} {rows : List SpikeEngine.MRow} :
    k ∈ SpikeEngine.sortedKeys rows → ∃ r ∈ rows, k = (r.district, r.indicatorname) := by
  intro h
  rcases mem_sortedKeys_aux rows [] h with h | h
  · simp at h
  · exact h

theorem mem_spikeRowsOf {d i : String} {r : SpikeEngine.SpikeRow} :
    ∀ {l : List (Nat × ℚ × Option ℚ)}, r ∈ SpikeEngine.spikeRowsOf d i l →
      r.indicatorname = i := by
  intro l
  induction l with
  | nil => intro h; simp [SpikeEngine.spikeRowsOf] at h
  | cons t rest ih =>
    rcases t with ⟨m, tv, b?⟩
    cases b? with
    | none =>
      intro h
      exact ih (by simpa [SpikeEngine.spikeRowsOf] using h)
    | some b =>
      intro h
      rw [SpikeEngine.spikeRowsOf] at h
      split_ifs at h
      · rcases List.mem_cons.mp h with h | h
        · rw [h]
        · exact ih h
      · exact ih h

theorem groupRows_indicatorname {rows : List SpikeEngine.MRow} {d i : String}
    {r : SpikeEngine.SpikeRow} (h : r ∈ SpikeEngine.groupRows rows d i) :
    r.indicatorname = i :=
  mem_spikeRowsOf (by simpa [SpikeEngine.groupRows] using h)

theorem detect_outbreaks_allowlist {rows : List SpikeEngine.MRow}
    {r : SpikeEngine.SpikeRow} (h : r ∈ SpikeEngine.detect_outbreaks rows) :
    SpikeEngine.matchesDisease r.indicatorname = true := by
  simp only [SpikeEngine.detect_outbreaks] at h
  have h1 := mem_sortDescBy h
  rw [List.mem_flatten] at h1
  rcases h1 with ⟨l, hl, hr⟩
  rw [List.mem_map] at hl
  rcases hl with ⟨k, hk, rfl⟩
  have hki := groupRows_indicatorname hr
  rcases mem_sortedKeys hk with ⟨row, hrow, hkeq⟩
  rw [List.mem_filter] at hrow
  have : k.2 = row.indicatorname := by rw [hkeq]
  rw [hki, this]
  exact hrow.2

theorem mem_riskEntriesOf {maternal : List RiskEngine.HRow} {e : RiskEngine.RiskEntry} :
    ∀ {ds : List String}, e ∈ RiskEngine.riskEntriesOf maternal ds →
      0 < e.pregnancies := by
  intro ds
  induction ds with
  | nil => intro h; simp [RiskEngine.riskEntriesOf] at h
  | cons d rest ih =>
    intro h
    rw [RiskEngine.riskEntriesOf] at h
    split_ifs at h with hcond
    · rcases List.mem_cons.mp h with h | h
      · rw [h]
        exact hcond.2
      · exact ih h
    · exact ih h

theorem compute_risk_pregnancies_pos {rows : List RiskEngine.HRow}
    {e : RiskEngine.RiskEntry} (h : e ∈ RiskEngine.compute_risk rows) :
    0 < e.pregnancies := by
  rw [RiskEngine.compute_risk] at h
  exact mem_riskEntriesOf (mem_sortDescBy h)

/-! ## ICU pressure fold lemma -/

theorem icu_fold (facs : List (Option Nat)) :
    ∀ (a b : Nat),
      facs.foldl
        (fun (acc : Nat × Nat) f? =>
          match f? with
          | some icu => (acc.1 + 20, acc.2 + icu)
          | none => acc) (a, b) =
        (a + 20 * WardRisk.countSnapshots facs, b + WardRisk.totalIcuAvailable facs) := by
  induction facs with
  | nil =>
    intro a b
    simp [WardRisk.countSnapshots, WardRisk.totalIcuAvailable]
  | cons f? rest ih =>
    intro a b
    cases f? with
    | none =>
      simp only [List.foldl_cons]
      rw [ih a b]
      simp [WardRisk.countSnapshots, WardRisk.totalIcuAvailable, List.filter, List.filterMap]
    | some icu =>
      simp only [List.foldl_cons]
      rw [ih (a + 20) (b + icu)]
      have hc : WardRisk.countSnapshots (some icu :: rest) = WardRisk.countSnapshots rest + 1 := by
        simp [WardRisk.countSnapshots, List.filter]
      have ht : WardRisk.totalIcuAvailable (some icu :: rest) =
          icu + WardRisk.totalIcuAvailable rest := by
        simp [WardRisk.totalIcuAvailable, List.filterMap]
      rw [hc, ht, Prod.mk.injEq]
      constructor <;> omega

/-! ## Bounds lemmas for the ward composite risk -/

theorem icuPressure_bounds (facs : List (Option Nat)) :
    0 ≤ WardRisk.get_ward_icu_pressure facs ∧ WardRisk.get_ward_icu_pressure facs ≤ 1 := by
  simp only [WardRisk.get_ward_icu_pressure]
  split_ifs
  · norm_num
  · norm_num
  · constructor
    · exact le_max_left 0 _
    · exact max_le (by norm_num) (min_le_left _ _)

theorem casesNormalized_bounds (c : Nat) :
    0 ≤ WardRisk.casesNormalized c ∧ WardRisk.casesNormalized c ≤ 100 := by
  rw [WardRisk.casesNormalized]
  constructor
  · exact le_min (by norm_num) (by positivity)
  · exact min_le_left _ _

theorem growthNormalized_bounds (c24 c6 : Nat) :
    0 ≤ WardRisk.growthNormalized c24 c6 ∧ WardRisk.growthNormalized c24 c6 ≤ 100 := by
  rw [WardRisk.growthNormalized]
  split_ifs
  · norm_num
  · constructor
    · refine le_min (by norm_num) ?_
      have h1 : 0 ≤ WardRisk.growthRate c24 c6 := by
        rw [WardRisk.growthRate]
        split_ifs
        exact div_nonneg (by positivity) (by positivity)
      positivity
    · exact min_le_left _ _

theorem rawScore_bounds (w : WardRisk.Ward) :
    0 ≤ WardRisk.rawScore w ∧ WardRisk.rawScore w ≤ 100 := by
  have h1 := casesNormalized_bounds w.cases24
  have h2 := growthNormalized_bounds w.cases24 w.cases6
  have h3 := icuPressure_bounds w.facilities
  rw [WardRisk.rawScore]
  constructor <;> nlinarith [h1.1, h1.2, h2.1, h2.2, h3.1, h3.2]

/-! ## Concrete pipeline evaluations -/

set_option maxRecDepth 4000 in
theorem detect_exampleC1_eval :
    SpikeEngine.detect_outbreaks exampleC1 =
      [⟨"D", "Dengue Cases", some "Mar", 300, 470 / 3, 4300 / 47⟩] := by
  have hf : (exampleC1.filter fun r => SpikeEngine.matchesDisease r.indicatorname) =
      exampleC1 := by with_unfolding_all decide
  have hk : SpikeEngine.sortedKeys exampleC1 = [("D", "Dengue Cases")] := by
    with_unfolding_all decide
  have hs : SpikeEngine.seriesFor exampleC1 "D" "Dengue Cases" =
      [(1, 80), (2, 90), (3, 300)] := by with_unfolding_all decide
  have hg : SpikeEngine.groupRows exampleC1 "D" "Dengue Cases" =
      [⟨"D", "Dengue Cases", some "Mar", 300, 470 / 3, 4300 / 47⟩] := by
    rw [SpikeEngine.groupRows, hs]
    norm_num [SpikeEngine.withBaseline, SpikeEngine.withBaselineAux,
      SpikeEngine.windowMean, SpikeEngine.ROLLING_WINDOW, SpikeEngine.monthName,
      SpikeEngine.MONTH_REVERSE, SpikeEngine.SPIKE_MULTIPLIER, SpikeEngine.spikeRowsOf]
  simp only [SpikeEngine.detect_outbreaks]
  rw [hf, hk]
  simp only [List.map_cons, List.map_nil]
  rw [hg]
  simp [sortDescBy, insertDescBy]

set_option maxRecDepth 4000 in
theorem detect_exampleC5_eval :
    SpikeEngine.detect_outbreaks exampleC5 =
      [⟨"D", "Measles Vaccination", some "Mar", 300, 460 / 3, 2200 / 23⟩] := by
  have hf : (exampleC5.filter fun r => SpikeEngine.matchesDisease r.indicatorname) =
      exampleC5 := by with_unfolding_all decide
  have hk : SpikeEngine.sortedKeys exampleC5 = [("D", "Measles Vaccination")] := by
    with_unfolding_all decide
  have hs : SpikeEngine.seriesFor exampleC5 "D" "Measles Vaccination" =
      [(1, 80), (2, 80), (3, 300)] := by with_unfolding_all decide
  have hg : SpikeEngine.groupRows exampleC5 "D" "Measles Vaccination" =
      [⟨"D", "Measles Vaccination", some "Mar", 300, 460 / 3, 2200 / 23⟩] := by
    rw [SpikeEngine.groupRows, hs]
    norm_num [SpikeEngine.withBaseline, SpikeEngine.withBaselineAux,
      SpikeEngine.windowMean, SpikeEngine.ROLLING_WINDOW, SpikeEngine.monthName,
      SpikeEngine.MONTH_REVERSE, SpikeEngine.SPIKE_MULTIPLIER, SpikeEngine.spikeRowsOf]
  simp only [SpikeEngine.detect_outbreaks]
  rw [hf, hk]
  simp only [List.map_cons, List.map_nil]
  rw [hg]
  simp [sortDescBy, insertDescBy]

set_option maxRecDepth 4000 in
theorem compute_risk_exampleC6_eval :
    RiskEngine.compute_risk exampleC6 = [⟨"D", 25, 200, 25 / 2, 125⟩] := by
  have hm : exampleC6.filter RiskEngine.isMaternal = exampleC6 := by
    with_unfolding_all decide
  have hd : RiskEngine.riskDistricts exampleC6 = ["D"] := by with_unfolding_all decide
  have h1 : RiskEngine.sumWhere exampleC6 RiskEngine.isAnemia "D" = 10 := by
    with_unfolding_all decide
  have h2 : RiskEngine.sumWhere exampleC6 RiskEngine.isHypertension "D" = 25 := by
    with_unfolding_all decide
  have h3 : RiskEngine.sumWhere exampleC6 RiskEngine.isLowWeight "D" = 5 := by
    with_unfolding_all decide
  have h4 : RiskEngine.sumWhere exampleC6 RiskEngine.isPregReg "D" = 200 := by
    with_unfolding_all decide
  have h5 : (exampleC6.any fun r => RiskEngine.isPregReg r && r.district = "D") = true := by
    with_unfolding_all decide
  rw [RiskEngine.compute_risk, hm, hd]
  simp only [RiskEngine.riskEntriesOf, h1, h2, h3, h4, h5]
  norm_num [sortDescBy, insertDescBy, max_def]

theorem cwr_exampleWard_eval (n : String) :
    WardRisk.compute_ward_risk n WardRisk.exampleWard =
      ⟨n, 50, "HIGH", 100, 1 / 2, 8 / 5⟩ := by
  norm_num [WardRisk.compute_ward_risk, WardRisk.rawScore, WardRisk.casesNormalized,
    WardRisk.growthRate, WardRisk.growthNormalized, WardRisk.get_ward_icu_pressure,
    WardRisk.riskLevel, WardRisk.exampleWard, pyRound, roundHalfEven, min_def, max_def]

theorem allwards_BA_eval :
    WardRisk.get_all_wards_risk [("B", WardRisk.exampleWard), ("A", WardRisk.exampleWard)] =
      [⟨"B", 50, "HIGH", 100, 1 / 2, 8 / 5⟩, ⟨"A", 50, "HIGH", 100, 1 / 2, 8 / 5⟩] := by
  rw [WardRisk.get_all_wards_risk]
  simp only [List.filter, List.map]
  norm_num [cwr_exampleWard_eval, sortDescBy, insertDescBy]

theorem allwards_AB_eval :
    WardRisk.get_all_wards_risk [("A", WardRisk.exampleWard), ("B", WardRisk.exampleWard)] =
      [⟨"A", 50, "HIGH", 100, 1 / 2, 8 / 5⟩, ⟨"B", 50, "HIGH", 100, 1 / 2, 8 / 5⟩] := by
  rw [WardRisk.get_all_wards_risk]
  simp only [List.filter, List.map]
  norm_num [cwr_exampleWard_eval, sortDescBy, insertDescBy]

/-- The four levels of `riskLevel` with their inclusive lower-bound
thresholds. -/
theorem riskLevel_cases (s : ℚ) :
    (WardRisk.riskLevel s = "CRITICAL" ↔ 75 ≤ s) ∧
      (WardRisk.riskLevel s = "HIGH" ↔ 50 ≤ s ∧ ¬75 ≤ s) ∧
      (WardRisk.riskLevel s = "MEDIUM" ↔ 25 ≤ s ∧ ¬50 ≤ s) ∧
      (WardRisk.riskLevel s = "LOW" ↔ ¬25 ≤ s) := by
  rw [WardRisk.riskLevel]
  split_ifs with h1 h2 h3 <;>
    refine ⟨?_, ?_, ?_, ?_⟩ <;> simp_all <;> intros <;> linarith

/-! ## Claim theorems -/

/-- C1 (counterexample): with period totals [80, 90, 300] for
("D", "Dengue Cases") and floor 75, the period-3 baseline computed by
`detect_outbreaks` is 470/3 ≈ 156.67 — the rolling window includes the
current period — not the claimed mean(80,90) = 85, and the surge percent
is 4300/47 ≈ 91.5 % < 92, not ≈ 252.9 %. -/
theorem C1_counterexample :
    SpikeEngine.detect_outbreaks exampleC1 =
      [⟨"D", "Dengue Cases", some "Mar", 300, 470 / 3, 4300 / 47⟩] ∧
      (470 : ℚ) / 3 ≠ 85 ∧ (4300 : ℚ) / 47 < 92 := by
  refine ⟨detect_exampleC1_eval, by norm_num, by norm_num⟩

/-- C1 (amended): the rolling baseline is a trailing mean over the last
up-to-3 periods including the current one (`min_periods=2`): with totals
[80, 90, 300] the period-3 baseline is mean(80,90,300) = 470/3, the row
is still flagged because 300 > (470/3)×1.75 ≈ 274.2, and its
surge_percent is (300 − 470/3)/(470/3)×100 = 4300/47 ≈ 91.5 %. -/
theorem C1_amended :
    SpikeEngine.detect_outbreaks exampleC1 =
      [⟨"D", "Dengue Cases", some "Mar", 300, 470 / 3, 4300 / 47⟩] ∧
      (470 : ℚ) / 3 = (80 + 90 + 300) / 3 ∧
      (470 : ℚ) / 3 * SpikeEngine.SPIKE_MULTIPLIER < 300 ∧
      (4300 : ℚ) / 47 = (300 - 470 / 3) / (470 / 3) * 100 := by
  refine ⟨detect_exampleC1_eval, by norm_num, ?_, by norm_num⟩
  rw [SpikeEngine.SPIKE_MULTIPLIER]
  norm_num

/-- C2 (counterexample): when the new count is 30 and the median of the
same-indicator history is 10 — a ratio of exactly 3, not strictly more
than 3, with the count below the absolute threshold 200 — the check
still fires, because the code compares `tc / med >= 3`. -/
theorem C2_counterexample :
    OutbreakEngine.detect_one [⟨"X", 10⟩] ⟨"X", 30⟩ = true ∧
      ¬(200 ≤ (30 : ℤ)) ∧
      OutbreakEngine.median [10] = 10 ∧ ¬((3 : ℚ) < (30 : ℚ) / 10) := by
  refine ⟨?_, by norm_num, ?_, by norm_num⟩
  · norm_num [OutbreakEngine.detect_one, OutbreakEngine.median,
      OutbreakEngine.sortAscZ, OutbreakEngine.insertAscZ]
  · norm_num [OutbreakEngine.median, OutbreakEngine.sortAscZ, OutbreakEngine.insertAscZ]

/-- C2 (amended): `detect_one(history, new_record)` returns true iff the
new count is ≥ 200, or — among the same-indicator records within the
last 50 records — some exist and either their median is 0 and the new
count is > 0, or the count-to-median ratio is **at least** 3 (`≥`, not
strictly greater). -/
theorem C2_amended :
    ∀ (history : List OutbreakEngine.Rec2) (record : OutbreakEngine.Rec2),
      OutbreakEngine.detect_one history record = true ↔
        OutbreakEngine.detect_one_spec history record := by
  intro history record
  simp only [OutbreakEngine.detect_one, OutbreakEngine.detect_one_spec]
  by_cases h1 : (200 : ℤ) ≤ record.total_cases
  · simp [h1]
  · rw [if_neg h1]
    by_cases h2 :
        ((history.take 50).filter fun r =>
          r.indicatorname = record.indicatorname).map (·.total_cases) = []
    · simp [h1, h2]
    · rw [if_neg (by simpa [List.isEmpty_iff] using h2)]
      by_cases h3 :
          OutbreakEngine.median (((history.take 50).filter fun r =>
            r.indicatorname = record.indicatorname).map (·.total_cases)) = 0
      · simp [h1, h2, h3]
      · simp [h1, h2, h3]

/-- C3 (code evaluation at the failing input): for a facility with one
recent record of 6 cases and no status snapshot, both predictions return
`float("inf")` in the `*_remaining_hours` field — a non-finite value in
the returned record, contradicting the finiteness requirement. -/
theorem C3_nonfinite_output :
    PredictionService.predict_bed_demand [6] none =
      ⟨1, 24, PredictionService.HourVal.infH, false⟩ ∧
      PredictionService.predict_icu_demand [6] none =
        ⟨1, 24, PredictionService.HourVal.infH, false⟩ ∧
      PredictionService.hourValFinite PredictionService.HourVal.infH = false := by
  refine ⟨?_, ?_, rfl⟩ <;>
    norm_num [PredictionService.predict_bed_demand, PredictionService.predict_icu_demand,
      PredictionService.pyInt]

set_option maxRecDepth 4000 in
/-- C4 (counterexample): the normalizer is not idempotent —
`normalize("maternal death")` is `"Maternal Mortality"`, but applying
normalize again gives `"Deaths"` (the fallback mortality branch), so
`normalize(normalize(x)) ≠ normalize(x)` at `x = "maternal death"`, and
the canonical form `"Maternal Mortality"` is not a fixed point. -/
theorem C4_counterexample :
    normalize_indicator_name "maternal death" = "Maternal Mortality" ∧
      normalize_indicator_name (normalize_indicator_name "maternal death") = "Deaths" ∧
      ("Deaths" : String) ≠ "Maternal Mortality" := by
  decide

set_option maxRecDepth 8000 in
/-- C4 (amended): every disease-case canonical form the mapping can
produce (and "Deaths" and "Low Birth Weight") is a fixed point of the
normalizer, and `normalize("TB-Cases") = normalize("tuberculosis") =
"Tuberculosis Cases"`; but the mortality canonical forms
"Maternal Mortality" and "Neonatal Mortality" are not fixed points —
both are mapped to "Deaths" — so the normalizer is not idempotent on
all of its outputs. -/
theorem C4_amended :
    normalize_indicator_name "TB-Cases" = "Tuberculosis Cases" ∧
      normalize_indicator_name "tuberculosis" = "Tuberculosis Cases" ∧
      (canonicalDiseaseForms.all fun s => normalize_indicator_name s == s) = true ∧
      normalize_indicator_name "Maternal Mortality" = "Deaths" ∧
      normalize_indicator_name "Neonatal Mortality" = "Deaths" := by
  decide

/-- C5 (counterexample): an indicator matching both a disease keyword
("measles") and an activity word ("vaccination") is *not* excluded: with
totals [80, 80, 300] the "Measles Vaccination" row is flagged and
appears in the outbreak output. -/
theorem C5_counterexample :
    SpikeEngine.detect_outbreaks exampleC5 =
      [⟨"D", "Measles Vaccination", some "Mar", 300, 460 / 3, 2200 / 23⟩] ∧
      SpikeEngine.matchesActivity "Measles Vaccination" = true := by
  exact ⟨detect_exampleC5_eval, by decide⟩

/-- C5 (amended): the batch detector's only indicator filter is the
disease-keyword allow-list — every output row's indicator matches a
disease keyword — and records matching the activity/operational word
list are not excluded when they also match a disease keyword, as the
"Measles Vaccination" example shows (the activity words are used only by
`classify_signal` for explanation labels). -/
theorem C5_amended :
    (∀ (rows : List SpikeEngine.MRow),
        ((SpikeEngine.detect_outbreaks rows).all fun r =>
          SpikeEngine.matchesDisease r.indicatorname) = true) ∧
      ((SpikeEngine.detect_outbreaks exampleC5).all fun r =>
        SpikeEngine.matchesActivity r.indicatorname) = true := by
  constructor
  · intro rows
    rw [List.all_eq_true]
    intro r hr
    exact detect_outbreaks_allowlist hr
  · rw [detect_exampleC5_eval]
    decide

/-- C6: the maternal risk scorer takes the **maximum** (not the sum) of
the three per-district indicator sums as risk_events, keeps only
districts with a positive registered-pregnancy denominator, computes
`risk_score = events/pregnancies×100` and
`risk_per_1000 = events/pregnancies×1000`, and returns the entries
sorted by risk_score descending; on the example (anemia 10,
hypertension 25, low birth weight 5, pregnancies 200) it yields
risk_events 25, risk_score 12.5 and risk_per_1000 125. -/
theorem C6_maternal_risk :
    RiskEngine.compute_risk exampleC6 = [⟨"D", 25, 200, 25 / 2, 125⟩] ∧
      (25 : ℚ) = max (max 10 25) 5 ∧
      (25 : ℚ) / 2 = 25 / 200 * 100 ∧ (125 : ℚ) = 25 / 200 * 1000 ∧
      (∀ (rows : List RiskEngine.HRow),
        isSortedDesc ((RiskEngine.compute_risk rows).map (·.risk_score)) = true) ∧
      (∀ (rows : List RiskEngine.HRow),
        ((RiskEngine.compute_risk rows).all fun e => decide (0 < e.pregnancies)) = true) := by
  refine ⟨compute_risk_exampleC6_eval, by norm_num [max_def], by norm_num, by norm_num, ?_, ?_⟩
  · intro rows
    rw [RiskEngine.compute_risk]
    exact isSortedDesc_sortDescBy _ _
  · intro rows
    rw [List.all_eq_true]
    intro e he
    simpa using compute_risk_pregnancies_pos he

/-- C7 (counterexample): the case-volume ceiling in the code is 500, not
200: for cases_24h = 100, cases_6h = 40 and icu_pressure = 0.5 the
normalized case term is 100/500×100 = 20 (not 50) and the weighted score
is 50 (not 65); the level HIGH still holds, at the threshold. -/
theorem C7_counterexample :
    WardRisk.casesNormalized 100 = 20 ∧ (20 : ℚ) ≠ 50 ∧
      (WardRisk.compute_ward_risk "W1" WardRisk.exampleWard).risk_score = 50 ∧
      (50 : ℚ) ≠ 65 ∧
      WardRisk.get_ward_icu_pressure [some 10] = 1 / 2 := by
  refine ⟨?_, by norm_num, ?_, by norm_num, ?_⟩
  · norm_num [WardRisk.casesNormalized, min_def]
  · rw [cwr_exampleWard_eval]
  · norm_num [WardRisk.get_ward_icu_pressure, min_def, max_def]

/-- C7 (amended): the ward composite normalizes 24-hour case volume
against a ceiling of **500** (`cases_normalized = min(100, cases_24h /
500 × 100)`); for cases_24h = 100, cases_6h = 40, icu_pressure = 0.5
this gives cases_normalized = 20, growth_rate = 1.6,
growth_normalized = 100, icu_normalized = 50, weighted score
20×0.5 + 100×0.3 + 50×0.2 = 50 and level HIGH. -/
theorem C7_amended :
    WardRisk.compute_ward_risk "W1" WardRisk.exampleWard =
      ⟨"W1", 50, "HIGH", 100, 1 / 2, 8 / 5⟩ ∧
      WardRisk.casesNormalized 100 = min 100 ((100 : ℚ) / 500 * 100) ∧
      WardRisk.growthRate 100 40 = 8 / 5 ∧
      WardRisk.growthNormalized 100 40 = 100 ∧
      WardRisk.rawScore WardRisk.exampleWard =
        20 * (1 / 2) + 100 * (3 / 10) + (1 / 2) * 100 * (1 / 5) := by
  refine ⟨cwr_exampleWard_eval "W1", rfl, ?_, ?_, ?_⟩
  · norm_num [WardRisk.growthRate]
  · norm_num [WardRisk.growthRate, WardRisk.growthNormalized, min_def]
  · norm_num [WardRisk.rawScore, WardRisk.casesNormalized, WardRisk.growthRate,
      WardRisk.growthNormalized, WardRisk.get_ward_icu_pressure, WardRisk.exampleWard,
      min_def, max_def]

/-- C8: for every ward input (case counts and ICU availabilities are
natural numbers, hence non-negative), the ICU pressure is clamped to
[0, 1] before weighting, the returned risk score lies in [0, 100], and
the risk level is exactly one of LOW/MEDIUM/HIGH/CRITICAL with
inclusive lower-bound thresholds at 25, 50 and 75 on the raw weighted
score. -/
theorem C8_score_bounds :
    ∀ (n : String) (w : WardRisk.Ward),
      (0 ≤ WardRisk.get_ward_icu_pressure w.facilities ∧
        WardRisk.get_ward_icu_pressure w.facilities ≤ 1) ∧
      (0 ≤ (WardRisk.compute_ward_risk n w).risk_score ∧
        (WardRisk.compute_ward_risk n w).risk_score ≤ 100) ∧
      ((WardRisk.compute_ward_risk n w).risk_level = "LOW" ∨
        (WardRisk.compute_ward_risk n w).risk_level = "MEDIUM" ∨
        (WardRisk.compute_ward_risk n w).risk_level = "HIGH" ∨
        (WardRisk.compute_ward_risk n w).risk_level = "CRITICAL") ∧
      ((WardRisk.compute_ward_risk n w).risk_level = "CRITICAL" ↔
        75 ≤ WardRisk.rawScore w) ∧
      ((WardRisk.compute_ward_risk n w).risk_level = "HIGH" ↔
        50 ≤ WardRisk.rawScore w ∧ ¬75 ≤ WardRisk.rawScore w) ∧
      ((WardRisk.compute_ward_risk n w).risk_level = "MEDIUM" ↔
        25 ≤ WardRisk.rawScore w ∧ ¬50 ≤ WardRisk.rawScore w) ∧
      ((WardRisk.compute_ward_risk n w).risk_level = "LOW" ↔
        ¬25 ≤ WardRisk.rawScore w) := by
  intro n w
  have hraw := rawScore_bounds w
  have hlvl := riskLevel_cases (WardRisk.rawScore w)
  have hscore : (WardRisk.compute_ward_risk n w).risk_score =
      pyRound 1 (WardRisk.rawScore w) := rfl
  have hlevel : (WardRisk.compute_ward_risk n w).risk_level =
      WardRisk.riskLevel (WardRisk.rawScore w) := rfl
  refine ⟨icuPressure_bounds w.facilities,
    ⟨by rw [hscore]; exact pyRound_nonneg 1 hraw.1,
     by rw [hscore]; exact pyRound1_le_100 hraw.2⟩, ?_, ?_, ?_, ?_, ?_⟩
  · rw [hlevel, WardRisk.riskLevel]
    split_ifs <;> simp
  · rw [hlevel]; exact hlvl.1
  · rw [hlevel]; exact hlvl.2.1
  · rw [hlevel]; exact hlvl.2.2.1
  · rw [hlevel]; exact hlvl.2.2.2

/-- C9 (counterexample): ties are NOT broken by ward identifier — the
sort is stable on the enumeration order, so two enumerations of the same
equal-score wards produce different outputs: [B, A] stays [B, A] and
[A, B] stays [A, B]. The output ordering is therefore not determined by
(score, ward id). -/
theorem C9_counterexample :
    WardRisk.get_all_wards_risk
        [("B", WardRisk.exampleWard), ("A", WardRisk.exampleWard)] ≠
      WardRisk.get_all_wards_risk
        [("A", WardRisk.exampleWard), ("B", WardRisk.exampleWard)] ∧
      (WardRisk.get_all_wards_risk
        [("B", WardRisk.exampleWard), ("A", WardRisk.exampleWard)]).map (·.ward) =
        ["B", "A"] ∧
      (WardRisk.get_all_wards_risk
        [("A", WardRisk.exampleWard), ("B", WardRisk.exampleWard)]).map (·.ward) =
        ["A", "B"] ∧
      (WardRisk.compute_ward_risk "A" WardRisk.exampleWard).risk_score =
        (WardRisk.compute_ward_risk "B" WardRisk.exampleWard).risk_score := by
  refine ⟨?_, ?_, ?_, ?_⟩
  · rw [allwards_BA_eval, allwards_AB_eval]
    simp
  · rw [allwards_BA_eval]
    simp
  · rw [allwards_AB_eval]
    simp
  · rw [cwr_exampleWard_eval, cwr_exampleWard_eval]

/-- C9 (amended): the all-wards ranking is sorted by risk score
descending and is a permutation of the per-ward risk records of the
non-empty ward names, but equal-score wards retain the order in which
the store enumerated them (Python stable sort on the score key only):
the enumeration [B, A] with equal scores is returned as [B, A]. -/
theorem C9_amended :
    (∀ (wards : List (String × WardRisk.Ward)),
      isSortedDesc ((WardRisk.get_all_wards_risk wards).map (·.risk_score)) = true) ∧
      (∀ (wards : List (String × WardRisk.Ward)),
        List.Perm (WardRisk.get_all_wards_risk wards)
          ((wards.filter fun p => p.1 != "").map fun p =>
            WardRisk.compute_ward_risk p.1 p.2)) ∧
      (WardRisk.get_all_wards_risk
        [("B", WardRisk.exampleWard), ("A", WardRisk.exampleWard)]).map (·.ward) =
        ["B", "A"] := by
  refine ⟨?_, ?_, ?_⟩
  · intro wards
    rw [WardRisk.get_all_wards_risk]
    exact isSortedDesc_sortDescBy _ _
  · intro wards
    rw [WardRisk.get_all_wards_risk]
    exact perm_sortDescBy _ _
  · rw [allwards_BA_eval]
    simp

/-- C10: the ward ICU pressure ignores observed ICU capacity — each
facility with at least one status snapshot contributes a fixed capacity
of 20 ICU beds, the pressure is `(20·n − available) / (20·n)` clamped to
[0, 1] for the n snapshot-bearing facilities, and it is exactly 0 when
the ward has no facilities or none of its facilities has a snapshot. -/
theorem C10_icu_pressure :
    ∀ (facs : List (Option Nat)),
      WardRisk.get_ward_icu_pressure facs = WardRisk.icuPressureSpec facs := by
  intro facs
  rw [WardRisk.get_ward_icu_pressure, WardRisk.icuPressureSpec]
  by_cases hnil : facs = []
  · simp [hnil, WardRisk.countSnapshots]
  · rw [if_neg hnil, icu_fold facs 0 0]
    by_cases hcnt : WardRisk.countSnapshots facs = 0
    · simp [hcnt, hnil]
    · have h1 : ¬(facs = [] ∨ WardRisk.countSnapshots facs = 0) := by tauto
      rw [if_neg h1]
      have h2 : ¬(0 + 20 * WardRisk.countSnapshots facs = 0) := by omega
      rw [if_neg h2]
      push_cast
      ring_nf

end HealthSMC
